import Mathlib

/-
Verification development for the sandglass repository.

The offline SDF builder (scripts/generate_sdf.ts and its two variants) is
embedded over exact rationals; the geometry library calls
(three-mesh-bvh closestPointToPoint, THREE.Raycaster.intersectObject) are
modelled as oracles packaged in a structure, since the mesh itself is an
external asset.  The GPU particle kernels (the GLSL position/velocity
shaders in src/App.tsx and its variant) are embedded over the reals in a
later section, with the 3D texture sampler modelled as an oracle.
-/

open scoped Classical

/-- Exact 3-vector of rationals, the model of a THREE.Vector3 on the
Node.js side of the build script. -/
structure Vec3q where
  x : ℚ
  y : ℚ
  z : ℚ
deriving DecidableEq

/-- Componentwise subtraction of rational vectors. -/
def subQ (a b : Vec3q) : Vec3q := ⟨a.x - b.x, a.y - b.y, a.z - b.z⟩

/-- Dot product of rational vectors. -/
def dotQ (a b : Vec3q) : ℚ := a.x * b.x + a.y * b.y + a.z * b.z

/-- A flat Float32Array is modelled as a total map from index to value;
`updMem m i v` is the store `m[i] = v`. -/
def updMem (m : ℕ → ℚ) (i : ℕ) (v : ℚ) : ℕ → ℚ :=
  fun j => if j = i then v else m j

/-- Oracles for the mesh queries used by scripts/generate_sdf.ts:
`closestDist p` is `bvh.closestPointToPoint(p, hit)` (none when the query
returns null), and `xRayHitCount p` is the number of intersections
returned by `raycaster.intersectObject` for the ray from `p` along +X. -/
structure MeshQuery where
  closestDist : Vec3q → Option ℚ
  xRayHitCount : Vec3q → ℕ

/-- scripts/generate_sdf.ts `getSignedDistance`: unsigned nearest distance
from the closest-point query, sign from the parity of the +X ray's
intersection count (odd = inside); returns 0 when the query yields null. -/
def getSignedDistance (q : MeshQuery) (point : Vec3q) : ℚ :=
  match q.closestDist point with
  | none => 0
  | some distance =>
    let isInside := q.xRayHitCount point % 2 = 1
    let sign : ℚ := if isInside then -1 else 1
    distance * sign

/-- scripts/generate_sdf.ts: the per-axis cell size `delta = (max - min) / size`. -/
def gridDelta (minV maxV : Vec3q) (size : ℕ) : Vec3q :=
  ⟨(maxV.x - minV.x) / size, (maxV.y - minV.y) / size, (maxV.z - minV.z) / size⟩

/-- scripts/generate_sdf.ts: the voxel center
`min + (x + 0.5, y + 0.5, z + 0.5) * delta`. -/
def voxelCenter (minV delta : Vec3q) (x y z : ℕ) : Vec3q :=
  ⟨minV.x + (x + 1/2) * delta.x,
   minV.y + (y + 1/2) * delta.y,
   minV.z + (z + 1/2) * delta.z⟩

/-- Innermost loop of the createSDF triple loop: for fixed `y` and `z`,
`for (x = 0; x < size; x++) data[x + y*size + z*size*size] = g x y z`. -/
def rowWrite (size y z : ℕ) (g : ℕ → ℕ → ℕ → ℚ) (m : ℕ → ℚ) : ℕ → ℚ :=
  (List.range size).foldl (fun mx x => updMem mx (x + y * size + z * size * size) (g x y z)) m

/-- Middle loop of the createSDF triple loop (over `y`, for fixed `z`). -/
def planeWrite (size z : ℕ) (g : ℕ → ℕ → ℕ → ℚ) (m : ℕ → ℚ) : ℕ → ℚ :=
  (List.range size).foldl (fun my y => rowWrite size y z g my) m

/-- Outer loop of the createSDF triple loop (over `z`). -/
def gridWrite (size : ℕ) (g : ℕ → ℕ → ℕ → ℚ) (m : ℕ → ℚ) : ℕ → ℚ :=
  (List.range size).foldl (fun mz z => planeWrite size z g mz) m

/-- scripts/generate_sdf.ts `createSDF`: allocate a zeroed `size^3` array
and fill `data[x + y*size + z*size*size]` with the signed distance of the
voxel center `min + (x+0.5, y+0.5, z+0.5) * delta` for every voxel. -/
def createSDF (size : ℕ) (minV maxV : Vec3q) (q : MeshQuery) : ℕ → ℚ :=
  let delta := gridDelta minV maxV size
  gridWrite size (fun x y z => getSignedDistance q (voxelCenter minV delta x y z)) (fun _ => 0)

/-- The persisted JSON asset `{size, min, max, data}` written by the
builder, with `min`/`max` as 3-element arrays and `data` as the flat list
`Array.from(sdfData)`. -/
structure SdfJson where
  size : ℕ
  min : List ℚ
  max : List ℚ
  data : List ℚ

/-- The `sdfJson` record the builder serializes:
`{size, min: [min.x,min.y,min.z], max: [...], data: Array.from(sdfData)}`. -/
def sdfJsonOf (size : ℕ) (boxMin boxMax : Vec3q) (sdfData : ℕ → ℚ) : SdfJson :=
  ⟨size,
   [boxMin.x, boxMin.y, boxMin.z],
   [boxMax.x, boxMax.y, boxMax.z],
   (List.range (size * size * size)).map sdfData⟩

/-- `new THREE.Vector3().fromArray(l)`: components from the first three
list entries. -/
def vec3FromArray (l : List ℚ) : Vec3q :=
  ⟨l.getD 0 0, l.getD 1 0, l.getD 2 0⟩

/-- The in-memory result of App.tsx `loadSDFTexture`: grid resolution, the
Float32Array backing the 3D texture, and the volume bounds. -/
structure LoadedSDF where
  size : ℕ
  dataAt : ℕ → ℚ
  minV : Vec3q
  maxV : Vec3q

/-- App.tsx `loadSDFTexture`: reads `sdfJson.size`, builds a Float32Array
from `sdfJson.data`, and the bounds via `Vector3().fromArray`. -/
def loadSDFTexture (j : SdfJson) : LoadedSDF :=
  ⟨j.size, fun i => j.data.getD i 0, vec3FromArray j.min, vec3FromArray j.max⟩

/-- A mesh geometry as the builder sees it: its bounding box (from
`computeBoundingBox`) and the query oracles derived from its BVH. -/
structure MeshGeom where
  boxMin : Vec3q
  boxMax : Vec3q
  query : MeshQuery

/-- One node of the loaded GLB scene graph, as visited by `scene.traverse`. -/
structure SceneNode where
  name : String
  isMesh : Bool
  geom : MeshGeom

/-- scripts/generate_sdf.ts: `scene.traverse` assigning `innerMesh` on
every node with `isMesh && name === "inner"`; the last match wins. -/
def findInnerMesh (scene : List SceneNode) : Option SceneNode :=
  scene.foldl (fun acc child => if child.isMesh && child.name == "inner" then some child else acc) none

/-- The error message logged by the builder when no "inner" mesh exists. -/
def innerMeshMissingMsg : String := "メッシュ \"inner\" が見つかりませんでした。"

/-- The main flow of scripts/generate_sdf.ts after the GLB is parsed:
look for the mesh named "inner"; on failure report the error and stop
(nothing is computed or written); otherwise run createSDF at resolution 64
and serialize the asset record that is written to disk. -/
def generateSdfMain (scene : List SceneNode) : Except String SdfJson :=
  match findInnerMesh scene with
  | none => Except.error innerMeshMissingMsg
  | some m =>
    let sdfSize := 64
    let sdfData := createSDF sdfSize m.geom.boxMin m.geom.boxMax m.geom.query
    Except.ok (sdfJsonOf sdfSize m.geom.boxMin m.geom.boxMax sdfData)

/-- Oracles for the mesh queries used by the part_006 builder variant:
`closestDist p` / `closestPoint p` are the `distance` / `point` fields
filled by `bvh.closestPointToPoint(p, hit)`, and `rayHits p dir` is the
full, distance-sorted intersection list returned by
`raycaster.intersectObject` for the ray from `p` along `dir`. -/
structure MeshQuery6 where
  closestDist : Vec3q → ℚ
  closestPoint : Vec3q → Vec3q
  rayHits : Vec3q → Vec3q → List ℚ

/-- part_006 CONFIG.BOUNDARY_EPSILON = 1e-5. -/
def BOUNDARY_EPSILON : ℚ := 1 / 100000

/-- part_006 CONFIG.RAY_DIRECTIONS = 14. -/
def RAY_DIRECTIONS : ℕ := 14

/-- THREE.Vector3.normalize: divide by `length() || 1`, so the zero vector
is left unchanged.  The square root of the Node-side float library is
passed in as the oracle `sq` (applied to the squared length). -/
def threeNormalize (sq : ℚ → ℚ) (v : Vec3q) : Vec3q :=
  let len := sq (dotQ v v)
  let d := if len = 0 then 1 else len
  ⟨v.x / d, v.y / d, v.z / d⟩

/-- part_006 `computeGradient`: central differences of the unsigned
closest-point distance along the three axes with step `eps`. -/
def computeGradient (q : MeshQuery6) (point : Vec3q) (eps : ℚ) : Vec3q :=
  ⟨(q.closestDist ⟨point.x + eps, point.y, point.z⟩ -
      q.closestDist ⟨point.x - eps, point.y, point.z⟩) / (2 * eps),
   (q.closestDist ⟨point.x, point.y + eps, point.z⟩ -
      q.closestDist ⟨point.x, point.y - eps, point.z⟩) / (2 * eps),
   (q.closestDist ⟨point.x, point.y, point.z + eps⟩ -
      q.closestDist ⟨point.x, point.y, point.z - eps⟩) / (2 * eps)⟩

/-- part_006 `getSignedDistance`.  The builder sets
`raycaster.firstHitOnly = true`, but it never assigns
`geometry.boundsTree`, so the three-mesh-bvh `acceleratedRaycast` falls
back to the stock THREE.Mesh raycast, which ignores `firstHitOnly`:
each `intersectObject` call returns the full, distance-sorted
intersection list `q.rayHits point dir`.  `sq` is the float square root
used by `normalize` in the near-surface branch. -/
def getSignedDistance6 (sq : ℚ → ℚ) (q : MeshQuery6) (directions : List Vec3q)
    (point : Vec3q) : ℚ :=
  let distance := q.closestDist point
  if distance < BOUNDARY_EPSILON then
    let gradient := computeGradient q point BOUNDARY_EPSILON
    let normal := threeNormalize sq gradient
    let pointToSurface := threeNormalize sq (subQ point (q.closestPoint point))
    distance * (if dotQ pointToSurface normal < 0 then -1 else 1)
  else
    let acc := directions.foldl
      (fun (acc : ℕ × ℚ × ℕ) dir =>
        let intersects := q.rayHits point dir
        match intersects with
        | [] => acc
        | first :: rest => (acc.1 + 1, acc.2.1 + first, acc.2.2 + (first :: rest).length % 2))
      (0, 0, 0)
    let validRays := acc.1
    let weightedDistance := acc.2.1
    let inCount := acc.2.2
    if 0 < validRays then
      let averageFirstHitDistance := weightedDistance / (validRays : ℚ)
      let isInside :=
        (inCount : ℚ) / (validRays : ℚ) > 1/2 ∧
          distance < averageFirstHitDistance * (11/10)
      distance * (if isInside then -1 else 1)
    else
      distance

/-- Number of the cast rays that hit anything (the claim's "rays that hit
anything" / the code's `validRays`). -/
def validRaysOf (q : MeshQuery6) (dirs : List Vec3q) (p : Vec3q) : ℕ :=
  dirs.countP (fun dir => !(q.rayHits p dir).isEmpty)

/-- Sum of the first-hit distances over all rays (misses contribute 0). -/
def firstHitSumOf (q : MeshQuery6) (dirs : List Vec3q) (p : Vec3q) : ℚ :=
  (dirs.map (fun dir =>
    match q.rayHits p dir with
    | [] => 0
    | first :: _ => first)).sum

/-- Number of rays whose full crossing count is odd (and that hit at all):
the votes the CLAIM describes. -/
def oddCrossingVotesOf (q : MeshQuery6) (dirs : List Vec3q) (p : Vec3q) : ℕ :=
  dirs.countP (fun dir =>
    !(q.rayHits p dir).isEmpty && (q.rayHits p dir).length % 2 == 1)

/-- The inside classification exactly as the claim words it (vote = odd
crossing parity, strict majority of the rays that hit anything, distance
cross-check against 1.1x the average first-hit distance).  Stated from the
spec's words for comparison against `getSignedDistance6`. -/
def specParityInside (q : MeshQuery6) (dirs : List Vec3q) (p : Vec3q) : Prop :=
  0 < validRaysOf q dirs p ∧
  (validRaysOf q dirs p : ℚ) < 2 * (oddCrossingVotesOf q dirs p : ℚ) ∧
  q.closestDist p < (firstHitSumOf q dirs p / (validRaysOf q dirs p : ℚ)) * (11/10)

/-- Real 3-vector: the model of a GLSL `vec3`.  Shader float arithmetic is
idealized as exact real arithmetic. -/
structure Vec3 where
  x : ℝ
  y : ℝ
  z : ℝ

/-- The zero vector `vec3(0.0)`. -/
def zeroV : Vec3 := ⟨0, 0, 0⟩

/-- Componentwise addition. -/
def addV (a b : Vec3) : Vec3 := ⟨a.x + b.x, a.y + b.y, a.z + b.z⟩

/-- Componentwise subtraction. -/
def subV (a b : Vec3) : Vec3 := ⟨a.x - b.x, a.y - b.y, a.z - b.z⟩

/-- Scalar times vector. -/
def smulV (c : ℝ) (v : Vec3) : Vec3 := ⟨c * v.x, c * v.y, c * v.z⟩

/-- Negation `-v`. -/
def negV (v : Vec3) : Vec3 := ⟨-v.x, -v.y, -v.z⟩

/-- GLSL `dot`. -/
def dotV (a b : Vec3) : ℝ := a.x * b.x + a.y * b.y + a.z * b.z

/-- GLSL `length`. -/
noncomputable def lenV (v : Vec3) : ℝ := Real.sqrt (dotV v v)

/-- Componentwise division (GLSL `/` on vec3). -/
noncomputable def divV (a b : Vec3) : Vec3 := ⟨a.x / b.x, a.y / b.y, a.z / b.z⟩

/-- GLSL scalar `clamp(v, lo, hi) = min(max(v, lo), hi)`. -/
noncomputable def clampR (v lo hi : ℝ) : ℝ := min (max v lo) hi

/-- GLSL componentwise `clamp` on vec3. -/
noncomputable def clampV (v : Vec3) (lo hi : ℝ) : Vec3 :=
  ⟨clampR v.x lo hi, clampR v.y lo hi, clampR v.z lo hi⟩

/-- GLSL `reflect(I, N) = I - 2 * dot(N, I) * N`. -/
def reflectV (I N : Vec3) : Vec3 := subV I (smulV (2 * dotV N I) N)

/-- GLSL `normalize`: `v / length(v)`, undefined (NaN components) on the
zero vector; the undefined case is modelled as `none`. -/
noncomputable def normalizeV (v : Vec3) : Option Vec3 :=
  if v = zeroV then none else some (smulV (1 / lenV v) v)

/-- The uniforms and texture bindings of the simulation shaders.  The
trilinearly interpolating 3D texture lookup `texture(sdfTexture, uv).r`
and the two state textures are modelled as oracles; `rotationMatrix` is
the action of the mat4 uniform on direction vectors (`w = 0`). -/
structure Uniforms where
  sdfTexture : Vec3 → ℝ
  sdfMin : Vec3
  sdfMax : Vec3
  sdfSize : ℝ
  gravity : Vec3
  rotationMatrix : Vec3 → Vec3
  resolution : ℝ × ℝ
  texturePosition : ℝ × ℝ → Vec3 × ℝ
  textureVelocity : ℝ × ℝ → Vec3 × ℝ
  delta : ℝ

/-- `(pos - sdfMin) / (sdfMax - sdfMin)`, the normalized grid coordinate
computed by every shader before sampling the SDF texture. -/
noncomputable def sdfUV (u : Uniforms) (pos : Vec3) : Vec3 :=
  divV (subV pos u.sdfMin) (subV u.sdfMax u.sdfMin)

namespace SandApp

/-- App.tsx velocityShader `const float COLLISION_DAMPING = 0.3`. -/
noncomputable def COLLISION_DAMPING : ℝ := 0.3

/-- App.tsx velocityShader `const float FRICTION = 0.95`. -/
noncomputable def FRICTION : ℝ := 0.95

/-- App.tsx velocityShader `const float PARTICLE_RADIUS = 0.01`. -/
noncomputable def PARTICLE_RADIUS : ℝ := 0.01

/-- App.tsx velocityShader `const int MAX_COLLISION_ITERATIONS = 4`. -/
def MAX_COLLISION_ITERATIONS : ℕ := 4

/-- App.tsx velocityShader `const float PARTICLE_MASS = 0.1`. -/
noncomputable def PARTICLE_MASS : ℝ := 0.1

/-- App.tsx velocityShader `const float REPULSION_STRENGTH = 1.2`. -/
noncomputable def REPULSION_STRENGTH : ℝ := 1.2

/-- App.tsx velocityShader `const float MIN_VELOCITY = 0.001`. -/
noncomputable def MIN_VELOCITY : ℝ := 0.001

/-- App.tsx velocityShader `const float SDF_THRESHOLD = 0.02`. -/
noncomputable def SDF_THRESHOLD : ℝ := 0.02

/-- App.tsx positionShader `getSDF`: out-of-bounds UV (any component
below 0 or above 1) yields the far-outside value 1000.0, otherwise the
texture is sampled. -/
noncomputable def posGetSDF (u : Uniforms) (pos : Vec3) : ℝ :=
  let uv := sdfUV u pos
  if uv.x < 0 ∨ uv.y < 0 ∨ uv.z < 0 ∨ uv.x > 1 ∨ uv.y > 1 ∨ uv.z > 1 then 1000
  else u.sdfTexture uv

/-- App.tsx positionShader main: advance the position by `vel * delta`,
re-sample the SDF there and store the inside/outside tag in the w
component (`-1` when the sampled SDF is negative, `+1` otherwise). -/
noncomputable def positionShaderApp (u : Uniforms) (uv : ℝ × ℝ) : Vec3 × ℝ :=
  let pos := u.texturePosition uv
  let vel := u.textureVelocity uv
  let newPos := addV pos.1 (smulV u.delta vel.1)
  let sdf := posGetSDF u newPos
  (newPos, if sdf < 0 then -1 else 1)

/-- App.tsx velocityShader `getSDF`: the UV is clamped to the volume edge
and the texture is sampled there (no far-outside branch). -/
noncomputable def velGetSDF (u : Uniforms) (pos : Vec3) : ℝ :=
  let uv := clampV (sdfUV u pos) 0 1
  u.sdfTexture uv

/-- App.tsx velocityShader `computeNormal`: central-difference gradient of
the SDF texture with step `0.5 / sdfSize`, then `normalize(d)` with no
guard against the zero gradient (GLSL normalize(0) is undefined, hence
the `Option`). -/
noncomputable def computeNormal (u : Uniforms) (pos : Vec3) : Option Vec3 :=
  let uv := sdfUV u pos
  let eps := 0.5 / u.sdfSize
  let d : Vec3 :=
    ⟨u.sdfTexture (addV uv ⟨eps, 0, 0⟩) - u.sdfTexture (subV uv ⟨eps, 0, 0⟩),
     u.sdfTexture (addV uv ⟨0, eps, 0⟩) - u.sdfTexture (subV uv ⟨0, eps, 0⟩),
     u.sdfTexture (addV uv ⟨0, 0, eps⟩) - u.sdfTexture (subV uv ⟨0, 0, eps⟩)⟩
  normalizeV d

/-- The loop offsets `-2.0, -1.0, 0.0, 1.0, 2.0` of the 5x5 neighbor scan. -/
noncomputable def steps5 : List ℝ := [-2, -1, 0, 1, 2]

/-- Body of App.tsx `computeParticleInteraction` for one `(dx, dy)` cell:
skip self, out-of-range UVs and outside-tagged neighbors (`w > 0`); for a
neighbor with `0 < dist < searchRadius` add
`normalize(diff) * (1 - dist/searchRadius)^2 * REPULSION_STRENGTH`
(here `normalize(diff) = diff / length(diff)` since `dist > 0`). -/
noncomputable def interactionBody (u : Uniforms) (uv : ℝ × ℝ) (pos : Vec3)
    (acc : Vec3) (dx dy : ℝ) : Vec3 :=
  let searchRadius := PARTICLE_RADIUS * 3
  if dx = 0 ∧ dy = 0 then acc
  else
    let neighborUV := (uv.1 + dx / u.resolution.1, uv.2 + dy / u.resolution.2)
    if neighborUV.1 < 0 ∨ neighborUV.2 < 0 ∨ neighborUV.1 > 1 ∨ neighborUV.2 > 1 then acc
    else
      let neighborPosData := u.texturePosition neighborUV
      if neighborPosData.2 > 0 then acc
      else
        let diff := subV pos neighborPosData.1
        let dist := lenV diff
        if dist < searchRadius ∧ dist > 0 then
          let force := 1 - dist / searchRadius
          let force2 := force * force * REPULSION_STRENGTH
          addV acc (smulV force2 (smulV (1 / dist) diff))
        else acc

/-- App.tsx `computeParticleInteraction`: fold `interactionBody` over the
5x5 index window (dy outer, dx inner), starting from `vec3(0.0)`. -/
noncomputable def computeParticleInteraction (u : Uniforms) (uv : ℝ × ℝ)
    (pos _vel : Vec3) : Vec3 :=
  steps5.foldl (fun acc dy =>
    steps5.foldl (fun acc2 dx => interactionBody u uv pos acc2 dx dy) acc) zeroV

/-- One iteration of App.tsx velocityShader's collision loop on the state
`(testPos, newVel)`: advance by `newVel * delta/4`, sample the clamped
SDF; on `sdf >= -SDF_THRESHOLD` compute the (unguarded) normal, push the
position out by `sdf + SDF_THRESHOLD`, and if the velocity points along
the normal reflect it about `-normal`, damp it, and damp its tangential
part. -/
noncomputable def collisionStep (u : Uniforms) (st : Vec3 × Vec3) : Option (Vec3 × Vec3) :=
  let testPos := addV st.1 (smulV (u.delta / (MAX_COLLISION_ITERATIONS : ℝ)) st.2)
  let sdf := velGetSDF u testPos
  if sdf ≥ -SDF_THRESHOLD then
    match computeNormal u testPos with
    | none => none
    | some normal =>
      let testPos2 := addV testPos (smulV (sdf + SDF_THRESHOLD) normal)
      let normalVel := dotV st.2 normal
      if normalVel > 0 then
        let v1 := smulV COLLISION_DAMPING (reflectV st.2 (negV normal))
        let tangentVel := subV v1 (smulV (dotV v1 normal) normal)
        let v2 := subV v1 (smulV (1 - FRICTION) tangentVel)
        some (testPos2, v2)
      else
        some (testPos2, st.2)
  else
    some (testPos, st.2)

/-- App.tsx velocityShader main.  A particle whose stored tag is not
inside (`posData.w >= 0`) gets `vec4(0.0)` immediately; otherwise gravity
is rotated, neighbor repulsion added, the velocity integrated and
friction-damped, the four collision iterations run, small velocities are
zeroed, and `vec4(newVel, 1.0)` is emitted.  `none` models a NaN result
escaping from the unguarded `normalize`. -/
noncomputable def velocityShaderApp (u : Uniforms) (uv : ℝ × ℝ) : Option (Vec3 × ℝ) :=
  let posData := u.texturePosition uv
  let vel := u.textureVelocity uv
  let pos := posData.1
  let isInside := posData.2 < 0
  if ¬ isInside then some (zeroV, 0)
  else
    let rotatedGravity := u.rotationMatrix u.gravity
    let totalForce := addV rotatedGravity (computeParticleInteraction u uv pos vel.1)
    let newVel0 := smulV FRICTION (addV vel.1 (smulV (u.delta / PARTICLE_MASS) totalForce))
    let res := (List.range MAX_COLLISION_ITERATIONS).foldl
      (fun st _ => Option.bind st (collisionStep u)) (some (pos, newVel0))
    match res with
    | none => none
    | some st =>
      let newVel2 := if lenV st.2 < MIN_VELOCITY then zeroV else st.2
      some (newVel2, 1)

end SandApp

namespace SandP2

/-- part_002 velocityShader `const float COLLISION_DAMPING = 0.3`. -/
noncomputable def COLLISION_DAMPING : ℝ := 0.3

/-- part_002 velocityShader `const float FRICTION = 0.98`. -/
noncomputable def FRICTION : ℝ := 0.98

/-- part_002 velocityShader `const float PARTICLE_RADIUS = 0.015`. -/
noncomputable def PARTICLE_RADIUS : ℝ := 0.015

/-- part_002 velocityShader `const float REPULSION_STRENGTH = 1.5`. -/
noncomputable def REPULSION_STRENGTH : ℝ := 1.5

/-- part_002 velocityShader `const float PARTICLE_MASS = 0.5`. -/
noncomputable def PARTICLE_MASS : ℝ := 0.5

/-- part_002 velocityShader `const float MIN_VELOCITY = 0.001`. -/
noncomputable def MIN_VELOCITY : ℝ := 0.001

/-- part_002 velocityShader `const float SDF_THRESHOLD = 0.02`. -/
noncomputable def SDF_THRESHOLD : ℝ := 0.02

/-- part_002 velocityShader `const int COLLISION_ITERATIONS = 4`. -/
def COLLISION_ITERATIONS : ℕ := 4

/-- part_002 velocityShader `const float MAX_STEP = 0.02`. -/
noncomputable def MAX_STEP : ℝ := 0.02

/-- part_002 velocityShader `const float GRAVITY_SCALE = 0.3`. -/
noncomputable def GRAVITY_SCALE : ℝ := 0.3

/-- part_002 velocityShader `getSDF`: UVs beyond a 10% margin around the
volume give the far-outside value 1000.0; otherwise the UV is clamped
into the volume and the sampled value is scaled by 0.8. -/
noncomputable def getSDF (u : Uniforms) (pos : Vec3) : ℝ :=
  let uv := sdfUV u pos
  if uv.x < -0.1 ∨ uv.y < -0.1 ∨ uv.z < -0.1 ∨ uv.x > 1.1 ∨ uv.y > 1.1 ∨ uv.z > 1.1 then 1000
  else
    let clampedUV := clampV uv 0 1
    let sdfValue := u.sdfTexture clampedUV
    sdfValue * 0.8

/-- part_002 velocityShader `computeNormal` (same text as the App.tsx
one): unguarded `normalize` of the central-difference gradient. -/
noncomputable def computeNormal (u : Uniforms) (pos : Vec3) : Option Vec3 :=
  let uv := sdfUV u pos
  let eps := 0.5 / u.sdfSize
  let d : Vec3 :=
    ⟨u.sdfTexture (addV uv ⟨eps, 0, 0⟩) - u.sdfTexture (subV uv ⟨eps, 0, 0⟩),
     u.sdfTexture (addV uv ⟨0, eps, 0⟩) - u.sdfTexture (subV uv ⟨0, eps, 0⟩),
     u.sdfTexture (addV uv ⟨0, 0, eps⟩) - u.sdfTexture (subV uv ⟨0, 0, eps⟩)⟩
  normalizeV d

/-- Force contributed by one scanned neighbor in part_002
`computeParticleInteraction`: for `0 < dist < searchRadius`, with
`influence = (1 - dist/searchRadius)^2`, the repulsion
`normalize(diff) * influence * REPULSION_STRENGTH` (written as
`diff / dist` since `dist > 0`) minus the viscosity term
`(vel - neighborVel) * influence * 0.1`; zero otherwise. -/
noncomputable def interactionTerm (pos vel : Vec3) (neighborPosData neighborVelData : Vec3 × ℝ) : Vec3 :=
  let searchRadius := PARTICLE_RADIUS * 4
  let diff := subV pos neighborPosData.1
  let dist := lenV diff
  if dist < searchRadius ∧ dist > 0 then
    let influence0 := 1 - dist / searchRadius
    let influence := influence0 * influence0
    let rep := smulV (influence * REPULSION_STRENGTH) (smulV (1 / dist) diff)
    let velDiff := subV vel neighborVelData.1
    subV rep (smulV (influence * 0.1) velDiff)
  else zeroV

/-- The loop offsets `-3.0 ... 3.0` of the 7x7 neighbor scan. -/
noncomputable def steps7 : List ℝ := [-3, -2, -1, 0, 1, 2, 3]

/-- part_002 `computeParticleInteraction`: scan the 7x7 index window
(skipping self and out-of-range UVs, with no inside/outside filter), read
the neighbor's position and velocity textures and accumulate
`interactionTerm`. -/
noncomputable def computeParticleInteraction (u : Uniforms) (uv : ℝ × ℝ)
    (pos vel : Vec3) : Vec3 :=
  steps7.foldl (fun acc dy =>
    steps7.foldl (fun acc2 dx =>
      if dx = 0 ∧ dy = 0 then acc2
      else
        let neighborUV := (uv.1 + dx / u.resolution.1, uv.2 + dy / u.resolution.2)
        if neighborUV.1 < 0 ∨ neighborUV.2 < 0 ∨ neighborUV.1 > 1 ∨ neighborUV.2 > 1 then acc2
        else
          addV acc2 (interactionTerm pos vel (u.texturePosition neighborUV)
            (u.textureVelocity neighborUV))) acc) zeroV

/-- One iteration of part_002 velocityShader's collision loop on
`(testPos, newVel)` with the clamped time step `adjustedDelta`: predict
`nextPos`, sample the SDF there; on `sdf > -SDF_THRESHOLD` compute the
(unguarded) normal at `testPos`, set the position to
`nextPos + normal * (sdf + SDF_THRESHOLD)`, and if the velocity runs into
the surface (`dot(newVel, normal) < 0`) reflect and damp it and damp its
tangential part; otherwise commit `nextPos`. -/
noncomputable def collisionStep (u : Uniforms) (adjustedDelta : ℝ) (st : Vec3 × Vec3) :
    Option (Vec3 × Vec3) :=
  let nextPos := addV st.1 (smulV (adjustedDelta / (COLLISION_ITERATIONS : ℝ)) st.2)
  let sdf := getSDF u nextPos
  if sdf > -SDF_THRESHOLD then
    match computeNormal u st.1 with
    | none => none
    | some normal =>
      let penetration := sdf + SDF_THRESHOLD
      let testPos2 := addV nextPos (smulV penetration normal)
      let normalVel := dotV st.2 normal
      if normalVel < 0 then
        let v1 := smulV COLLISION_DAMPING (reflectV st.2 normal)
        let tangentVel := subV v1 (smulV (dotV v1 normal) normal)
        let v2 := subV v1 (smulV (1 - FRICTION) tangentVel)
        some (testPos2, v2)
      else
        some (testPos2, st.2)
  else
    some (nextPos, st.2)

/-- part_002 velocityShader main: scaled rotated gravity plus neighbor
interaction, velocity integrated with the clamped step
`adjustedDelta = min(delta, 0.016)`, speed clamped to
`speedLimit = MAX_STEP / adjustedDelta`, four collision iterations, and
small velocities zeroed; emits `vec4(newVel, 1.0)`. -/
noncomputable def velocityShaderP2 (u : Uniforms) (uv : ℝ × ℝ) : Option (Vec3 × ℝ) :=
  let posData := u.texturePosition uv
  let vel := u.textureVelocity uv
  let pos := posData.1
  let rotatedGravity := u.rotationMatrix (smulV GRAVITY_SCALE u.gravity)
  let force := addV rotatedGravity (computeParticleInteraction u uv pos vel.1)
  let adjustedDelta := min u.delta 0.016
  let newVel0 := addV vel.1 (smulV (adjustedDelta / PARTICLE_MASS) force)
  let speedLimit := MAX_STEP / adjustedDelta
  let currentSpeed := lenV newVel0
  let newVel1 :=
    if currentSpeed > speedLimit then smulV speedLimit (smulV (1 / currentSpeed) newVel0)
    else newVel0
  let res := (List.range COLLISION_ITERATIONS).foldl
    (fun st _ => Option.bind st (collisionStep u adjustedDelta)) (some (pos, newVel1))
  match res with
  | none => none
  | some st =>
    let newVel2 := if lenV st.2 < MIN_VELOCITY then zeroV else st.2
    some (newVel2, 1)

end SandP2

theorem foldl_updMem_ne (k b : ℕ) (f : ℕ → ℚ) (m : ℕ → ℚ) (j : ℕ)
    (hj : ∀ t, t < k → j ≠ t + b) :
    (List.range k).foldl (fun mm t => updMem mm (t + b) (f t)) m j = m j := by
  induction k with
  | zero => simp
  | succ n ih =>
    rw [List.range_succ, List.foldl_append]
    simp only [List.foldl_cons, List.foldl_nil]
    have hne : j ≠ n + b := hj n (Nat.lt_succ_self n)
    simp only [updMem, if_neg hne]
    exact ih (fun t ht => hj t (Nat.lt_succ_of_lt ht))

theorem foldl_updMem_eq (k b : ℕ) (f : ℕ → ℚ) (m : ℕ → ℚ) (t : ℕ) (ht : t < k) :
    (List.range k).foldl (fun mm s => updMem mm (s + b) (f s)) m (t + b) = f t := by
  induction k with
  | zero => exact absurd ht (Nat.not_lt_zero t)
  | succ n ih =>
    rw [List.range_succ, List.foldl_append]
    simp only [List.foldl_cons, List.foldl_nil]
    by_cases hc : t = n
    · subst hc
      simp [updMem]
    · have ht' : t < n := by omega
      have hne : t + b ≠ n + b := by omega
      simp only [updMem, if_neg hne]
      exact ih ht'

theorem rowWrite_eq_fold (size y z : ℕ) (g : ℕ → ℕ → ℕ → ℚ) (m : ℕ → ℚ) :
    rowWrite size y z g m =
      (List.range size).foldl
        (fun mm s => updMem mm (s + (y * size + z * size * size)) (g s y z)) m := by
  unfold rowWrite
  congr 1
  funext mm s
  rw [Nat.add_assoc]

theorem rowWrite_get_eq (size y z : ℕ) (g : ℕ → ℕ → ℕ → ℚ) (m : ℕ → ℚ) (x : ℕ)
    (hx : x < size) :
    rowWrite size y z g m (x + y * size + z * size * size) = g x y z := by
  rw [rowWrite_eq_fold, Nat.add_assoc]
  exact foldl_updMem_eq size (y * size + z * size * size) (fun s => g s y z) m x hx

theorem rowWrite_get_ne (size y z : ℕ) (g : ℕ → ℕ → ℕ → ℚ) (m : ℕ → ℚ) (j : ℕ)
    (hj : ∀ x, x < size → j ≠ x + y * size + z * size * size) :
    rowWrite size y z g m j = m j := by
  rw [rowWrite_eq_fold]
  refine foldl_updMem_ne size (y * size + z * size * size) (fun s => g s y z) m j ?_
  intro t ht
  have := hj t ht
  omega

theorem planeFold_get_ne (size z : ℕ) (g : ℕ → ℕ → ℕ → ℚ) (k : ℕ) (m : ℕ → ℚ) (j : ℕ)
    (hj : ∀ x y, x < size → y < k → j ≠ x + y * size + z * size * size) :
    (List.range k).foldl (fun my y => rowWrite size y z g my) m j = m j := by
  induction k with
  | zero => simp
  | succ n ih =>
    rw [List.range_succ, List.foldl_append]
    simp only [List.foldl_cons, List.foldl_nil]
    refine (rowWrite_get_ne size n z g _ j
      (fun x hx => hj x n hx (Nat.lt_succ_self n))).trans ?_
    exact ih (fun x y hx hy => hj x y hx (Nat.lt_succ_of_lt hy))

theorem planeFold_get_eq (size z : ℕ) (g : ℕ → ℕ → ℕ → ℚ) (k : ℕ) (m : ℕ → ℚ)
    (x y : ℕ) (hx : x < size) (hy : y < k) :
    (List.range k).foldl (fun my yy => rowWrite size yy z g my) m
      (x + y * size + z * size * size) = g x y z := by
  induction k with
  | zero => exact absurd hy (Nat.not_lt_zero y)
  | succ n ih =>
    rw [List.range_succ, List.foldl_append]
    simp only [List.foldl_cons, List.foldl_nil]
    by_cases hc : y = n
    · subst hc
      exact rowWrite_get_eq size y z g _ x hx
    · have hy' : y < n := by omega
      have hne : ∀ x', x' < size →
          x + y * size + z * size * size ≠ x' + n * size + z * size * size := by
        intro x' hx'
        have h2 : x + y * size < (y + 1) * size := by
          rw [Nat.succ_mul]; omega
        have h3 : (y + 1) * size ≤ n * size := Nat.mul_le_mul_right size (by omega)
        omega
      exact (rowWrite_get_ne size n z g _ _ hne).trans (ih hy')

theorem gridFold_get_eq (size : ℕ) (g : ℕ → ℕ → ℕ → ℚ) (k : ℕ) (m : ℕ → ℚ)
    (x y z : ℕ) (hx : x < size) (hy : y < size) (hz : z < k) :
    (List.range k).foldl (fun mz zz => planeWrite size zz g mz) m
      (x + y * size + z * size * size) = g x y z := by
  induction k with
  | zero => exact absurd hz (Nat.not_lt_zero z)
  | succ n ih =>
    rw [List.range_succ, List.foldl_append]
    simp only [List.foldl_cons, List.foldl_nil]
    by_cases hc : z = n
    · subst hc
      exact planeFold_get_eq size z g size _ x y hx hy
    · have hz' : z < n := by omega
      have hne : ∀ x' y', x' < size → y' < size →
          x + y * size + z * size * size ≠ x' + y' * size + n * size * size := by
        intro x' y' hx' hy'
        have h2 : x + y * size < (y + 1) * size := by
          rw [Nat.succ_mul]; omega
        have h3 : (y + 1) * size ≤ size * size := Nat.mul_le_mul_right size (by omega)
        have h4 : z * size * size + size * size ≤ n * size * size := by
          have h5 : (z + 1) * size * size ≤ n * size * size :=
            Nat.mul_le_mul_right size (Nat.mul_le_mul_right size (by omega))
          have h6 : (z + 1) * size * size = z * size * size + size * size := by
            rw [Nat.succ_mul, Nat.add_mul]
          omega
        omega
      refine (planeFold_get_ne size n g size _ _ hne).trans (ih hz')

theorem gridWrite_get (size : ℕ) (g : ℕ → ℕ → ℕ → ℚ) (m : ℕ → ℚ) (x y z : ℕ)
    (hx : x < size) (hy : y < size) (hz : z < size) :
    gridWrite size g m (x + y * size + z * size * size) = g x y z := by
  unfold gridWrite
  exact gridFold_get_eq size g size m x y z hx hy hz

/-- C1: for the SDF builder at resolution `size`, the output entry
`data[x + y*size + z*size*size]` is the signed distance of the voxel
center `min + (x+0.5, y+0.5, z+0.5)*(max-min)/size`: its magnitude is the
unsigned nearest-surface distance `d` returned by the closest-point
query, it is negative exactly when the center is classified inside (odd
ray-crossing count) and positive exactly when classified outside. -/
theorem sdf_grid_entry_correct (size x y z : ℕ) (minV maxV : Vec3q) (q : MeshQuery) (d : ℚ)
    (hx : x < size) (hy : y < size) (hz : z < size)
    (hq : q.closestDist (voxelCenter minV (gridDelta minV maxV size) x y z) = some d)
    (hd : 0 < d) :
    createSDF size minV maxV q (x + y * size + z * size * size) =
      getSignedDistance q (voxelCenter minV (gridDelta minV maxV size) x y z) ∧
    |createSDF size minV maxV q (x + y * size + z * size * size)| = d ∧
    (createSDF size minV maxV q (x + y * size + z * size * size) < 0 ↔
      q.xRayHitCount (voxelCenter minV (gridDelta minV maxV size) x y z) % 2 = 1) ∧
    (0 < createSDF size minV maxV q (x + y * size + z * size * size) ↔
      ¬ q.xRayHitCount (voxelCenter minV (gridDelta minV maxV size) x y z) % 2 = 1) := by
  have hmain : createSDF size minV maxV q (x + y * size + z * size * size) =
      getSignedDistance q (voxelCenter minV (gridDelta minV maxV size) x y z) := by
    simp only [createSDF]
    exact gridWrite_get size _ _ x y z hx hy hz
  have hval : getSignedDistance q (voxelCenter minV (gridDelta minV maxV size) x y z) =
      d * (if q.xRayHitCount (voxelCenter minV (gridDelta minV maxV size) x y z) % 2 = 1
        then (-1 : ℚ) else 1) := by
    simp only [getSignedDistance, hq]
  rw [hmain, hval]
  by_cases hb : q.xRayHitCount (voxelCenter minV (gridDelta minV maxV size) x y z) % 2 = 1
  · rw [if_pos hb, mul_neg_one]
    refine ⟨rfl, by rw [abs_neg, abs_of_pos hd], ?_, ?_⟩
    · exact ⟨fun _ => hb, fun _ => by linarith⟩
    · exact ⟨fun hlt => absurd hb (by intro _; linarith), fun hcon => absurd hb hcon⟩
  · rw [if_neg hb, mul_one]
    refine ⟨rfl, abs_of_pos hd, ?_, ?_⟩
    · exact ⟨fun hlt => absurd hd (by linarith), fun hcon => absurd hcon hb⟩
    · exact ⟨fun _ => hb, fun _ => hd⟩

/-- Witness for C1 at a 1-voxel grid over the unit box with an
inside-classified center at unsigned distance 1/4. -/
theorem sdf_grid_entry_correct_witness :
    (0 : ℕ) < 1 ∧ (0 : ℚ) < 1/4 ∧
    (createSDF 1 ⟨0, 0, 0⟩ ⟨1, 1, 1⟩ ⟨fun _ => some (1/4), fun _ => 1⟩ (0 + 0 * 1 + 0 * 1 * 1) < 0 ↔
      (⟨fun _ => some (1/4), fun _ => 1⟩ : MeshQuery).xRayHitCount
        (voxelCenter ⟨0, 0, 0⟩ (gridDelta ⟨0, 0, 0⟩ ⟨1, 1, 1⟩ 1) 0 0 0) % 2 = 1) := by
  refine ⟨by norm_num, by norm_num, ?_⟩
  exact (sdf_grid_entry_correct 1 0 0 0 ⟨0, 0, 0⟩ ⟨1, 1, 1⟩
    ⟨fun _ => some (1/4), fun _ => 1⟩ (1/4)
    (by norm_num) (by norm_num) (by norm_num) rfl (by norm_num)).2.2.1

/-- C2: serializing an SDF volume (size, bounds, flat data) to the JSON
asset record and loading it back reproduces `size`, `min`, `max` and every
one of the `size^3` data entries exactly. -/
theorem sdf_roundtrip (size : ℕ) (minV maxV : Vec3q) (sdfData : ℕ → ℚ) :
    (loadSDFTexture (sdfJsonOf size minV maxV sdfData)).size = size ∧
    (loadSDFTexture (sdfJsonOf size minV maxV sdfData)).minV = minV ∧
    (loadSDFTexture (sdfJsonOf size minV maxV sdfData)).maxV = maxV ∧
    ∀ i, i < size * size * size →
      (loadSDFTexture (sdfJsonOf size minV maxV sdfData)).dataAt i = sdfData i := by
  refine ⟨rfl, rfl, rfl, ?_⟩
  intro i hi
  simp only [loadSDFTexture, sdfJsonOf]
  rw [List.getD_eq_getElem?_getD, List.getElem?_map, List.getElem?_range hi]
  rfl

/-- Witness for C2 on a 2x2x2 volume. -/
theorem sdf_roundtrip_witness :
    (0 : ℕ) < 2 * 2 * 2 ∧
    (loadSDFTexture (sdfJsonOf 2 ⟨0, 0, 0⟩ ⟨1, 2, 3⟩ (fun i => (i : ℚ)))).dataAt 0 =
      ((0 : ℕ) : ℚ) := by
  refine ⟨by norm_num, ?_⟩
  exact (sdf_roundtrip 2 ⟨0, 0, 0⟩ ⟨1, 2, 3⟩ (fun i => (i : ℚ))).2.2.2 0 (by norm_num)

/-- C6: when no mesh named "inner" is found in the scene, the builder
reports the descriptive error and produces no asset at all (in
particular, it never returns an `ok` SDF record, so no all-outside field
is silently emitted and nothing is written). -/
theorem builder_fails_without_inner (scene : List SceneNode)
    (h : findInnerMesh scene = none) :
    generateSdfMain scene = Except.error innerMeshMissingMsg ∧
    ∀ j : SdfJson, generateSdfMain scene ≠ Except.ok j := by
  have hmain : generateSdfMain scene = Except.error innerMeshMissingMsg := by
    simp only [generateSdfMain, h]
  refine ⟨hmain, fun j hj => ?_⟩
  rw [hmain] at hj
  exact Except.noConfusion hj

/-- Witness for C6 on a scene holding a single mesh named "outer". -/
theorem builder_fails_without_inner_witness :
    findInnerMesh [⟨"outer", true, ⟨⟨0, 0, 0⟩, ⟨1, 1, 1⟩, ⟨fun _ => none, fun _ => 0⟩⟩⟩] = none ∧
    generateSdfMain [⟨"outer", true, ⟨⟨0, 0, 0⟩, ⟨1, 1, 1⟩, ⟨fun _ => none, fun _ => 0⟩⟩⟩] =
      Except.error innerMeshMissingMsg := by
  refine ⟨rfl, ?_⟩
  exact (builder_fails_without_inner
    [⟨"outer", true, ⟨⟨0, 0, 0⟩, ⟨1, 1, 1⟩, ⟨fun _ => none, fun _ => 0⟩⟩⟩] rfl).1

theorem rayFold_eq (q : MeshQuery6) (p : Vec3q) (dirs : List Vec3q)
    (v0 : ℕ) (w0 : ℚ) (i0 : ℕ) :
    dirs.foldl
      (fun (acc : ℕ × ℚ × ℕ) dir =>
        let intersects := q.rayHits p dir
        match intersects with
        | [] => acc
        | first :: rest => (acc.1 + 1, acc.2.1 + first, acc.2.2 + (first :: rest).length % 2))
      (v0, w0, i0) =
    (v0 + validRaysOf q dirs p, w0 + firstHitSumOf q dirs p,
      i0 + oddCrossingVotesOf q dirs p) := by
  induction dirs generalizing v0 w0 i0 with
  | nil => simp [validRaysOf, firstHitSumOf, oddCrossingVotesOf]
  | cons d ds ih =>
    simp only [List.foldl_cons]
    cases hd : q.rayHits p d with
    | nil =>
      simp only [hd]
      rw [ih]
      simp [validRaysOf, firstHitSumOf, oddCrossingVotesOf, List.countP_cons, hd]
    | cons h t =>
      simp only [hd]
      rw [ih]
      simp only [validRaysOf, firstHitSumOf, oddCrossingVotesOf, List.countP_cons,
        List.map_cons, List.sum_cons, hd, List.isEmpty_cons, Bool.not_false, Bool.true_and,
        List.length_cons]
      refine Prod.ext ?_ (Prod.ext ?_ ?_)
      · simp
        omega
      · simp
        ring
      · simp only
        rcases Nat.mod_two_eq_zero_or_one (t.length + 1) with hp | hp
        · rw [hp]
          norm_num
        · rw [hp]
          norm_num
          omega

/-- C3: away from the near-surface fallback, the part_006 builder
classifies a voxel center inside exactly when, over the cast ray
directions (K = 14 >= 6 in CONFIG), the rays voting inside — those whose
full surface-crossing count is odd — form a strict majority of the rays
that hit anything, and the unsigned nearest-surface distance is below
1.1 times the average first-hit distance over those valid rays.  (The
builder's `raycaster.firstHitOnly = true` is inert because
`geometry.boundsTree` is never assigned, so each ray sees its full
intersection list.) -/
theorem sdf_parity_vote_inside (sq : ℚ → ℚ) (q : MeshQuery6)
    (dirs : List Vec3q) (p : Vec3q)
    (hK : 6 ≤ dirs.length)
    (h : ¬ q.closestDist p < BOUNDARY_EPSILON) :
    getSignedDistance6 sq q dirs p < 0 ↔ specParityInside q dirs p := by
  have hdpos : 0 < q.closestDist p := by
    have hle : BOUNDARY_EPSILON ≤ q.closestDist p := not_lt.mp h
    have heps : (0 : ℚ) < BOUNDARY_EPSILON := by norm_num [BOUNDARY_EPSILON]
    linarith
  simp only [getSignedDistance6, if_neg h]
  rw [rayFold_eq]
  simp only [Nat.zero_add, zero_add]
  rw [specParityInside]
  by_cases hv : 0 < validRaysOf q dirs p
  · rw [if_pos hv]
    have hvQ : (0 : ℚ) < (validRaysOf q dirs p : ℚ) := by exact_mod_cast hv
    have hmaj : ((oddCrossingVotesOf q dirs p : ℚ) / (validRaysOf q dirs p : ℚ) > 1/2) ↔
        ((validRaysOf q dirs p : ℚ) < 2 * (oddCrossingVotesOf q dirs p : ℚ)) := by
      rw [gt_iff_lt, lt_div_iff hvQ]
      constructor
      · intro hlt
        linarith
      · intro hlt
        linarith
    by_cases hc : (oddCrossingVotesOf q dirs p : ℚ) / (validRaysOf q dirs p : ℚ) > 1/2 ∧
        q.closestDist p <
          firstHitSumOf q dirs p / (validRaysOf q dirs p : ℚ) * (11/10)
    · rw [if_pos hc, mul_neg_one]
      constructor
      · intro _
        exact ⟨hv, hmaj.mp hc.1, hc.2⟩
      · intro _
        linarith
    · rw [if_neg hc, mul_one]
      constructor
      · intro hlt
        exact absurd hdpos (by linarith)
      · intro hh
        exact absurd ⟨hmaj.mpr hh.2.1, hh.2.2⟩ hc
  · rw [if_neg hv]
    constructor
    · intro hlt
      exact absurd hdpos (by linarith)
    · intro hh
      exact absurd hh.1 hv

/-- Witness for C3 over six directions whose rays each report a single
crossing at distance 2 from a point at unsigned distance 1: all six rays
vote inside (odd count), the majority holds, 1 < 1.1 * 2, and the code
indeed classifies the point inside. -/
theorem sdf_parity_vote_inside_witness :
    6 ≤ ([⟨1, 0, 0⟩, ⟨-1, 0, 0⟩, ⟨0, 1, 0⟩, ⟨0, -1, 0⟩, ⟨0, 0, 1⟩,
        (⟨0, 0, -1⟩ : Vec3q)]).length ∧
    ¬ ((⟨fun _ => 1, fun _ => ⟨0, 0, 0⟩, fun _ _ => [2]⟩ : MeshQuery6).closestDist ⟨0, 0, 0⟩ <
        BOUNDARY_EPSILON) ∧
    getSignedDistance6 (fun a => a)
        ⟨fun _ => 1, fun _ => ⟨0, 0, 0⟩, fun _ _ => [2]⟩
        [⟨1, 0, 0⟩, ⟨-1, 0, 0⟩, ⟨0, 1, 0⟩, ⟨0, -1, 0⟩, ⟨0, 0, 1⟩, ⟨0, 0, -1⟩]
        ⟨0, 0, 0⟩ < 0 ∧
    (getSignedDistance6 (fun a => a)
        ⟨fun _ => 1, fun _ => ⟨0, 0, 0⟩, fun _ _ => [2]⟩
        [⟨1, 0, 0⟩, ⟨-1, 0, 0⟩, ⟨0, 1, 0⟩, ⟨0, -1, 0⟩, ⟨0, 0, 1⟩, ⟨0, 0, -1⟩]
        ⟨0, 0, 0⟩ < 0 ↔
      specParityInside ⟨fun _ => 1, fun _ => ⟨0, 0, 0⟩, fun _ _ => [2]⟩
        [⟨1, 0, 0⟩, ⟨-1, 0, 0⟩, ⟨0, 1, 0⟩, ⟨0, -1, 0⟩, ⟨0, 0, 1⟩, ⟨0, 0, -1⟩]
        ⟨0, 0, 0⟩) := by
  have hiff := sdf_parity_vote_inside (fun a => a)
    ⟨fun _ => 1, fun _ => ⟨0, 0, 0⟩, fun _ _ => [2]⟩
    [⟨1, 0, 0⟩, ⟨-1, 0, 0⟩, ⟨0, 1, 0⟩, ⟨0, -1, 0⟩, ⟨0, 0, 1⟩, ⟨0, 0, -1⟩]
    ⟨0, 0, 0⟩ (by norm_num) (by norm_num [BOUNDARY_EPSILON])
  have hneg : getSignedDistance6 (fun a => a)
      ⟨fun _ => 1, fun _ => ⟨0, 0, 0⟩, fun _ _ => [2]⟩
      [⟨1, 0, 0⟩, ⟨-1, 0, 0⟩, ⟨0, 1, 0⟩, ⟨0, -1, 0⟩, ⟨0, 0, 1⟩, ⟨0, 0, -1⟩]
      ⟨0, 0, 0⟩ < 0 := by
    norm_num [getSignedDistance6, BOUNDARY_EPSILON]
  exact ⟨by norm_num, by norm_num [BOUNDARY_EPSILON], hneg, hiff⟩

theorem addV_zero (v : Vec3) : addV v zeroV = v := by
  simp [addV, zeroV]

theorem smulV_zero (c : ℝ) : smulV c zeroV = zeroV := by
  simp [smulV, zeroV]

theorem subV_self (v : Vec3) : subV v v = zeroV := by
  simp [subV, zeroV]

theorem lenV_zero : lenV zeroV = 0 := by
  simp [lenV, dotV, zeroV]

theorem dotV_self_nonneg (v : Vec3) : 0 ≤ dotV v v := by
  simp only [dotV]
  nlinarith [sq_nonneg v.x, sq_nonneg v.y, sq_nonneg v.z]

theorem lenV_nonneg (v : Vec3) : 0 ≤ lenV v := Real.sqrt_nonneg _

theorem sq_lenV (v : Vec3) : lenV v ^ 2 = dotV v v := Real.sq_sqrt (dotV_self_nonneg v)

theorem lenV_mono {a b : Vec3} (h : dotV a a ≤ dotV b b) : lenV a ≤ lenV b :=
  Real.sqrt_le_sqrt h

theorem lenV_smul (c : ℝ) (v : Vec3) : lenV (smulV c v) = |c| * lenV v := by
  have h : dotV (smulV c v) (smulV c v) = c ^ 2 * dotV v v := by
    simp only [dotV, smulV]; ring
  rw [lenV, h, Real.sqrt_mul (sq_nonneg c), Real.sqrt_sq_eq_abs]
  rfl

theorem dotV_self_pos (v : Vec3) (hv : v ≠ zeroV) : 0 < dotV v v := by
  rcases lt_or_eq_of_le (dotV_self_nonneg v) with h | h
  · exact h
  · exfalso
    apply hv
    cases v with
    | mk a b c =>
      simp only [dotV] at h
      have ha : a = 0 := by nlinarith [sq_nonneg a, sq_nonneg b, sq_nonneg c]
      have hb : b = 0 := by nlinarith [sq_nonneg a, sq_nonneg b, sq_nonneg c]
      have hc : c = 0 := by nlinarith [sq_nonneg a, sq_nonneg b, sq_nonneg c]
      simp [zeroV, ha, hb, hc]

theorem lenV_pos (v : Vec3) (hv : v ≠ zeroV) : 0 < lenV v :=
  Real.sqrt_pos.mpr (dotV_self_pos v hv)

theorem cauchy3 (a b : Vec3) : (dotV a b) ^ 2 ≤ dotV a a * dotV b b := by
  simp only [dotV]
  nlinarith [sq_nonneg (a.x * b.y - a.y * b.x), sq_nonneg (a.x * b.z - a.z * b.x),
    sq_nonneg (a.y * b.z - a.z * b.y)]

theorem dotV_comm (a b : Vec3) : dotV a b = dotV b a := by
  simp only [dotV]; ring

theorem dotV_smul_left (c : ℝ) (a b : Vec3) : dotV (smulV c a) b = c * dotV a b := by
  simp only [dotV, smulV]; ring

theorem dotV_smul_right (c : ℝ) (a b : Vec3) : dotV a (smulV c b) = c * dotV a b := by
  simp only [dotV, smulV]; ring

theorem dotV_sub_right (a b c : Vec3) : dotV a (subV b c) = dotV a b - dotV a c := by
  simp only [dotV, subV]; ring

theorem dot_sub_self (a b : Vec3) :
    dotV (subV a b) (subV a b) = dotV a a - 2 * dotV a b + dotV b b := by
  simp only [dotV, subV]; ring

theorem normalizeV_unit {d n : Vec3} (h : normalizeV d = some n) : dotV n n = 1 := by
  by_cases hd : d = zeroV
  · rw [normalizeV, if_pos hd] at h
    exact Option.noConfusion h
  · rw [normalizeV, if_neg hd] at h
    have hn : n = smulV (1 / lenV d) d := ((Option.some.injEq _ _).mp h).symm
    have hlen : lenV d ^ 2 = dotV d d := sq_lenV d
    have hne : lenV d ≠ 0 := ne_of_gt (lenV_pos d hd)
    rw [hn, dotV_smul_left, dotV_smul_right, ← hlen]
    field_simp
    ring

theorem dot_reflect (v n : Vec3) (hn : dotV n n = 1) :
    dotV (reflectV v n) (reflectV v n) = dotV v v := by
  have h1 := dot_sub_self v (smulV (2 * dotV n v) n)
  rw [reflectV, h1, dotV_smul_right, dotV_smul_left, dotV_smul_right, hn, dotV_comm v n]
  ring

theorem dot_damped_le (v1 n : Vec3) (hn : dotV n n = 1) (F : ℝ) (hF0 : 0 ≤ F) (hF1 : F ≤ 1) :
    dotV (subV v1 (smulV (1 - F) (subV v1 (smulV (dotV v1 n) n))))
        (subV v1 (smulV (1 - F) (subV v1 (smulV (dotV v1 n) n)))) ≤ dotV v1 v1 := by
  have hs2 : (dotV v1 n) ^ 2 ≤ dotV v1 v1 := by
    have hc := cauchy3 v1 n
    rw [hn, mul_one] at hc
    exact hc
  have htan : dotV (subV v1 (smulV (dotV v1 n) n)) (subV v1 (smulV (dotV v1 n) n)) =
      dotV v1 v1 - (dotV v1 n) ^ 2 := by
    rw [dot_sub_self, dotV_smul_right, dotV_smul_left, dotV_smul_right, hn]
    ring
  have hv1tan : dotV v1 (subV v1 (smulV (dotV v1 n) n)) = dotV v1 v1 - (dotV v1 n) ^ 2 := by
    rw [dotV_sub_right, dotV_smul_right]
    ring
  rw [dot_sub_self, dotV_smul_right, dotV_smul_left, dotV_smul_right, hv1tan, htan]
  have h3 : 0 ≤ (1 - F) * (1 + F) * (dotV v1 v1 - (dotV v1 n) ^ 2) :=
    mul_nonneg (mul_nonneg (by linarith) (by linarith)) (by linarith)
  nlinarith [h3]

theorem collisionStepP2_norm (u : Uniforms) (dAdj : ℝ) (st st' : Vec3 × Vec3)
    (h : SandP2.collisionStep u dAdj st = some st') : lenV st'.2 ≤ lenV st.2 := by
  simp only [SandP2.collisionStep] at h
  split at h
  · split at h
    · exact Option.noConfusion h
    · rename_i n heq
      have hunit : dotV n n = 1 := by
        rw [SandP2.computeNormal] at heq
        exact normalizeV_unit heq
      split at h
      · injection h with h2
        rw [← h2]
        refine lenV_mono ?_
        have h1 := dot_damped_le (smulV SandP2.COLLISION_DAMPING (reflectV st.2 n)) n hunit
          SandP2.FRICTION (by norm_num [SandP2.FRICTION]) (by norm_num [SandP2.FRICTION])
        have h2 : dotV (smulV SandP2.COLLISION_DAMPING (reflectV st.2 n))
            (smulV SandP2.COLLISION_DAMPING (reflectV st.2 n)) =
            SandP2.COLLISION_DAMPING ^ 2 * dotV st.2 st.2 := by
          rw [dotV_smul_left, dotV_smul_right, dot_reflect st.2 n hunit]
          ring
        have h3 : SandP2.COLLISION_DAMPING ^ 2 * dotV st.2 st.2 ≤ dotV st.2 st.2 := by
          have hC : SandP2.COLLISION_DAMPING ^ 2 ≤ 1 := by norm_num [SandP2.COLLISION_DAMPING]
          nlinarith [dotV_self_nonneg st.2, hC]
        calc dotV _ _ ≤ _ := h1
          _ = SandP2.COLLISION_DAMPING ^ 2 * dotV st.2 st.2 := h2
          _ ≤ dotV st.2 st.2 := h3
      · injection h with h2
        rw [← h2]
  · injection h with h2
    rw [← h2]

theorem foldl_bind_none (l : List ℕ) (f : Vec3 × Vec3 → Option (Vec3 × Vec3)) :
    l.foldl (fun st _ => Option.bind st f) none = none := by
  induction l with
  | nil => rfl
  | cons a t ih => simpa using ih

theorem foldl_collisionP2_norm (u : Uniforms) (dAdj : ℝ) (l : List ℕ)
    (init st' : Vec3 × Vec3)
    (h : l.foldl (fun st _ => Option.bind st (SandP2.collisionStep u dAdj)) (some init) =
      some st') :
    lenV st'.2 ≤ lenV init.2 := by
  induction l generalizing init with
  | nil =>
    simp only [List.foldl_nil] at h
    injection h with h2
    rw [← h2]
  | cons a t ih =>
    rw [List.foldl_cons] at h
    simp only [Option.some_bind] at h
    cases hstep : SandP2.collisionStep u dAdj init with
    | none =>
      rw [hstep, foldl_bind_none] at h
      exact Option.noConfusion h
    | some mid =>
      rw [hstep] at h
      exact le_trans (ih mid h) (collisionStepP2_norm u dAdj init mid hstep)

/-- C5: for every tick of the part_002 velocity kernel with a positive
elapsed time, and no matter what the previous particle state, the
neighbor states, the SDF field and the orientation are, the committed
speed is at most the configured clamp
`speedLimit = MAX_STEP / min(delta, 0.016)`.  Since this holds for every
tick output regardless of its input, along any sequence of ticks with
bounded positive deltas every committed velocity stays under its tick's
clamp: speed never grows without bound. -/
theorem speed_clamp (u : Uniforms) (uv : ℝ × ℝ) (out : Vec3 × ℝ)
    (hdelta : 0 < u.delta)
    (h : SandP2.velocityShaderP2 u uv = some out) :
    lenV out.1 ≤ SandP2.MAX_STEP / min u.delta 0.016 := by
  have had : 0 < min u.delta 0.016 := lt_min hdelta (by norm_num)
  have hlimpos : 0 < SandP2.MAX_STEP / min u.delta 0.016 :=
    div_pos (by norm_num [SandP2.MAX_STEP]) had
  have hclamp : ∀ v : Vec3,
      lenV (if lenV v > SandP2.MAX_STEP / min u.delta 0.016 then
        smulV (SandP2.MAX_STEP / min u.delta 0.016) (smulV (1 / lenV v) v) else v) ≤
      SandP2.MAX_STEP / min u.delta 0.016 := by
    intro v
    by_cases hcv : lenV v > SandP2.MAX_STEP / min u.delta 0.016
    · rw [if_pos hcv, lenV_smul, lenV_smul]
      have hlv : 0 < lenV v := lt_trans hlimpos hcv
      rw [abs_of_pos hlimpos, abs_of_pos (by positivity : (0:ℝ) < 1 / lenV v)]
      have : 1 / lenV v * lenV v = 1 := by field_simp
      rw [this, mul_one]
    · rw [if_neg hcv]
      exact not_lt.mp hcv
  simp only [SandP2.velocityShaderP2] at h
  split at h
  · exact Option.noConfusion h
  · rename_i stt heq
    injection h with h2
    rw [← h2]
    have hfold := foldl_collisionP2_norm u (min u.delta 0.016) _ _ _ heq
    by_cases hmin : lenV stt.2 < SandP2.MIN_VELOCITY
    · rw [if_pos hmin, lenV_zero]
      exact le_of_lt hlimpos
    · rw [if_neg hmin]
      exact le_trans hfold (hclamp _)

theorem foldl_fixed {α β : Type _} (l : List β) (f : α → β → α) (a : α)
    (h : ∀ acc x, f acc x = acc) : l.foldl f a = a := by
  induction l generalizing a with
  | nil => rfl
  | cons b t ih =>
    rw [List.foldl_cons, h]
    exact ih a

theorem interactionTermP2_self (p : Vec3) (w w2 : ℝ) (nv : Vec3) :
    SandP2.interactionTerm p zeroV (p, w) (nv, w2) = zeroV := by
  simp only [SandP2.interactionTerm]
  rw [subV_self, lenV_zero]
  rw [if_neg]
  intro hcon
  exact lt_irrefl 0 hcon.2

theorem velocityShaderP2_trivial_eval (u : Uniforms) (uv : ℝ × ℝ) (p : Vec3)
    (hpos : u.texturePosition = fun _ => (p, 1))
    (hvel : u.textureVelocity = fun _ => (zeroV, 0))
    (hgrav : u.gravity = zeroV)
    (hrot : ∀ v, u.rotationMatrix v = v)
    (hsdfn : SandP2.getSDF u p = -0.8) :
    SandP2.velocityShaderP2 u uv = some (zeroV, 1) := by
  have hint : SandP2.computeParticleInteraction u uv p zeroV = zeroV := by
    rw [SandP2.computeParticleInteraction]
    refine foldl_fixed _ _ _ ?_
    intro acc dy
    refine foldl_fixed _ _ _ ?_
    intro acc2 dx
    dsimp only
    by_cases h1 : dx = 0 ∧ dy = 0
    · rw [if_pos h1]
    · rw [if_neg h1]
      by_cases h2 : uv.1 + dx / u.resolution.1 < 0 ∨ uv.2 + dy / u.resolution.2 < 0 ∨
          uv.1 + dx / u.resolution.1 > 1 ∨ uv.2 + dy / u.resolution.2 > 1
      · rw [if_pos h2]
      · rw [if_neg h2]
        rw [hpos, hvel]
        rw [interactionTermP2_self, addV_zero]
  have hstep : SandP2.collisionStep u (min u.delta 0.016) (p, zeroV) = some (p, zeroV) := by
    rw [SandP2.collisionStep]
    dsimp only
    rw [smulV_zero, addV_zero, hsdfn]
    rw [if_neg (by norm_num [SandP2.SDF_THRESHOLD])]
  have hclampz : (if lenV zeroV > SandP2.MAX_STEP / min u.delta 0.016 then
      smulV (SandP2.MAX_STEP / min u.delta 0.016) (smulV (1 / lenV zeroV) zeroV)
      else zeroV) = zeroV := by
    by_cases hcz : lenV zeroV > SandP2.MAX_STEP / min u.delta 0.016
    · rw [if_pos hcz, smulV_zero, smulV_zero]
    · rw [if_neg hcz]
  simp only [SandP2.velocityShaderP2, hpos, hvel, hgrav, hrot, smulV_zero]
  rw [hint, addV_zero, smulV_zero, addV_zero]
  rw [hclampz]
  have hrange : List.range SandP2.COLLISION_ITERATIONS = [0, 1, 2, 3] := rfl
  rw [hrange]
  simp only [List.foldl_cons, List.foldl_nil, Option.some_bind, hstep]
  rw [if_pos (by rw [lenV_zero]; norm_num [SandP2.MIN_VELOCITY])]

/-- Concrete uniforms for the C5 witness: an everywhere-inside constant
SDF (-1), unit volume, zero gravity, identity rotation, all particles at
the volume center with zero velocity, and a 16ms tick. -/
noncomputable def clampWitnessU : Uniforms :=
  ⟨fun _ => -1, ⟨0, 0, 0⟩, ⟨1, 1, 1⟩, 64, zeroV, fun v => v, (1024, 1024),
   fun _ => (⟨1/2, 1/2, 1/2⟩, 1), fun _ => (zeroV, 0), 0.016⟩

/-- Witness for C5: the concrete tick evaluates to `some (zeroV, 1)` and
the clamp bound holds there with delta = 0.016. -/
theorem speed_clamp_witness :
    (0 : ℝ) < clampWitnessU.delta ∧
    SandP2.velocityShaderP2 clampWitnessU (1/2, 1/2) = some (zeroV, 1) ∧
    lenV zeroV ≤ SandP2.MAX_STEP / min clampWitnessU.delta 0.016 := by
  have hsdfn : SandP2.getSDF clampWitnessU ⟨1/2, 1/2, 1/2⟩ = -0.8 := by
    rw [SandP2.getSDF]
    simp only [clampWitnessU, sdfUV, divV, subV]
    norm_num
  have heval : SandP2.velocityShaderP2 clampWitnessU (1/2, 1/2) = some (zeroV, 1) :=
    velocityShaderP2_trivial_eval clampWitnessU (1/2, 1/2) ⟨1/2, 1/2, 1/2⟩
      rfl rfl rfl (fun _ => rfl) hsdfn
  refine ⟨by norm_num [clampWitnessU], heval, ?_⟩
  exact speed_clamp clampWitnessU (1/2, 1/2) (zeroV, 1)
    (by norm_num [clampWitnessU]) heval

/-- C4 (amended): the App.tsx position kernel commits
`pos + vel * delta` unconditionally — the SDF is re-sampled at the final
position only to derive the stored inside/outside tag (`w = +1` exactly
when the sampled value is not negative); there is no snap-back, so the
committed position can end the tick with a sampled SDF beyond the
boundary threshold, in which case the particle is merely tagged outside
(and then frozen by the velocity kernel) rather than pulled back. -/
theorem position_shader_no_snapback (u : Uniforms) (uv : ℝ × ℝ) :
    (SandApp.positionShaderApp u uv).1 =
      addV (u.texturePosition uv).1 (smulV u.delta (u.textureVelocity uv).1) ∧
    ((SandApp.positionShaderApp u uv).2 = 1 ↔
      ¬ SandApp.posGetSDF u
        (addV (u.texturePosition uv).1 (smulV u.delta (u.textureVelocity uv).1)) < 0) := by
  constructor
  · rfl
  · simp only [SandApp.positionShaderApp]
    by_cases hs : SandApp.posGetSDF u
        (addV (u.texturePosition uv).1 (smulV u.delta (u.textureVelocity uv).1)) < 0
    · rw [if_pos hs]
      constructor
      · intro h1
        exact absurd h1 (by norm_num)
      · intro h2
        exact absurd hs h2
    · rw [if_neg hs]
      exact ⟨fun _ => hs, fun _ => rfl⟩

/-- Concrete uniforms for the C4 counterexample: everywhere-inside
constant field (-1) on the unit volume, particle at the center tagged
inside, velocity 100 along x, 16ms tick. -/
noncomputable def escapeU : Uniforms :=
  ⟨fun _ => -1, ⟨0, 0, 0⟩, ⟨1, 1, 1⟩, 64, zeroV, fun v => v, (1024, 1024),
   fun _ => (⟨1/2, 1/2, 1/2⟩, -1), fun _ => (⟨100, 0, 0⟩, 1), 0.016⟩

/-- C4 counterexample: a particle that starts inside the cavity (sampled
SDF -1 < 0) is committed at `pos + vel * delta = (2.1, 0.5, 0.5)` where
the sampled SDF is the far-outside value 1000, far beyond the boundary
threshold 0.02 — the position kernel performs no snap-back and only tags
the particle outside. -/
theorem position_commit_counterexample :
    SandApp.posGetSDF escapeU ⟨1/2, 1/2, 1/2⟩ < 0 ∧
    SandApp.positionShaderApp escapeU (1/2, 1/2) = (⟨21/10, 1/2, 1/2⟩, 1) ∧
    SandApp.posGetSDF escapeU ⟨21/10, 1/2, 1/2⟩ = 1000 ∧
    SandApp.SDF_THRESHOLD < 1000 := by
  have hout : SandApp.posGetSDF escapeU ⟨21/10, 1/2, 1/2⟩ = 1000 := by
    rw [SandApp.posGetSDF]
    simp only [escapeU, sdfUV, divV, subV]
    norm_num
  have hnew : addV (escapeU.texturePosition (1/2, 1/2)).1
      (smulV escapeU.delta (escapeU.textureVelocity (1/2, 1/2)).1) = ⟨21/10, 1/2, 1/2⟩ := by
    simp only [escapeU, addV, smulV, Vec3.mk.injEq]
    norm_num
  refine ⟨?_, ?_, hout, by norm_num [SandApp.SDF_THRESHOLD]⟩
  · rw [SandApp.posGetSDF]
    simp only [escapeU, sdfUV, divV, subV]
    norm_num
  · simp only [SandApp.positionShaderApp]
    rw [hnew, hout, if_neg (by norm_num : ¬ (1000 : ℝ) < 0)]

/-- C8 (amended): only the position kernel's sampler returns the
far-outside value 1000 as soon as any normalized coordinate leaves
[0, 1]; the part_002 velocity kernel's sampler returns 1000 only beyond a
10% margin around the volume (inside the margin it returns 0.8 times the
edge-clamped sample, and the App.tsx velocity sampler always clamps).
Out-of-bounds sampling is recovered locally in all cases. -/
theorem oob_sampler_values (u : Uniforms) (pos : Vec3) :
    (((sdfUV u pos).x < 0 ∨ (sdfUV u pos).y < 0 ∨ (sdfUV u pos).z < 0 ∨
        (sdfUV u pos).x > 1 ∨ (sdfUV u pos).y > 1 ∨ (sdfUV u pos).z > 1) →
      SandApp.posGetSDF u pos = 1000) ∧
    (((sdfUV u pos).x < -0.1 ∨ (sdfUV u pos).y < -0.1 ∨ (sdfUV u pos).z < -0.1 ∨
        (sdfUV u pos).x > 1.1 ∨ (sdfUV u pos).y > 1.1 ∨ (sdfUV u pos).z > 1.1) →
      SandP2.getSDF u pos = 1000) := by
  constructor
  · intro h
    rw [SandApp.posGetSDF]
    exact if_pos h
  · intro h
    rw [SandP2.getSDF]
    exact if_pos h

/-- Concrete uniforms for C8: constant 0 field on the unit volume. -/
noncomputable def oobU : Uniforms :=
  ⟨fun _ => 0, ⟨0, 0, 0⟩, ⟨1, 1, 1⟩, 64, zeroV, fun v => v, (1024, 1024),
   fun _ => (zeroV, 1), fun _ => (zeroV, 0), 0.016⟩

/-- C8 counterexample: at position (1.05, 0.5, 0.5) the normalized grid
coordinate 1.05 lies outside the volume bounds, yet the part_002
velocity-kernel sampler returns 0 (the 0.8-scaled edge-clamped sample),
not 1000 — and that sample does satisfy the collision-branch condition
`sdf > -SDF_THRESHOLD`, so an out-of-bounds sample can trigger collision
response rather than never doing so. -/
theorem oob_sample_counterexample :
    (sdfUV oobU ⟨21/20, 1/2, 1/2⟩).x > 1 ∧
    SandP2.getSDF oobU ⟨21/20, 1/2, 1/2⟩ = 0 ∧
    (0 : ℝ) ≠ 1000 ∧
    SandP2.getSDF oobU ⟨21/20, 1/2, 1/2⟩ > -SandP2.SDF_THRESHOLD := by
  have hval : SandP2.getSDF oobU ⟨21/20, 1/2, 1/2⟩ = 0 := by
    rw [SandP2.getSDF]
    simp only [oobU, sdfUV, divV, subV, clampV, clampR]
    norm_num
  refine ⟨?_, hval, by norm_num, ?_⟩
  · simp only [oobU, sdfUV, divV, subV]
    norm_num
  · rw [hval]
    norm_num [SandP2.SDF_THRESHOLD]

/-- Witness for the amended C8 at position (2, 2, 2) over the unit
volume, where both samplers return 1000. -/
theorem oob_sampler_values_witness :
    ((sdfUV oobU ⟨2, 2, 2⟩).x > 1) ∧
    SandApp.posGetSDF oobU ⟨2, 2, 2⟩ = 1000 ∧
    SandP2.getSDF oobU ⟨2, 2, 2⟩ = 1000 := by
  have huv : (sdfUV oobU ⟨2, 2, 2⟩).x > 1 := by
    simp only [oobU, sdfUV, divV, subV]
    norm_num
  have huv2 : (sdfUV oobU ⟨2, 2, 2⟩).x > 1.1 := by
    simp only [oobU, sdfUV, divV, subV]
    norm_num
  refine ⟨huv, ?_, ?_⟩
  · exact (oob_sampler_values oobU ⟨2, 2, 2⟩).1 (Or.inr (Or.inr (Or.inr (Or.inl huv))))
  · exact (oob_sampler_values oobU ⟨2, 2, 2⟩).2 (Or.inr (Or.inr (Or.inr (Or.inl huv2))))

/-- C7 (amended): the gradient normalization is NOT guarded.  Whenever the
SDF texture is locally constant (so every central-difference gradient is
the zero vector) and the sampled value triggers the collision branch
(`sdf >= -SDF_THRESHOLD`), the App.tsx velocity kernel evaluates
`normalize(0)` — undefined in GLSL, modelled as `none` — instead of
skipping the collision response: the kernel's result is the undefined
value, not a recovered one. -/
theorem zero_gradient_unguarded (u : Uniforms) (uv : ℝ × ℝ) (c : ℝ)
    (hw : (u.texturePosition uv).2 < 0)
    (htex : ∀ p, u.sdfTexture p = c)
    (hc : -SandApp.SDF_THRESHOLD ≤ c) :
    SandApp.velocityShaderApp u uv = none := by
  have hnorm : ∀ p, SandApp.computeNormal u p = none := by
    intro p
    rw [SandApp.computeNormal]
    rw [htex, htex, htex, htex, htex, htex]
    rw [normalizeV, if_pos (by simp [zeroV])]
  have hstep : ∀ st : Vec3 × Vec3, SandApp.collisionStep u st = none := by
    intro st
    rw [SandApp.collisionStep]
    have hsdf : SandApp.velGetSDF u
        (addV st.1 (smulV (u.delta / (SandApp.MAX_COLLISION_ITERATIONS : ℝ)) st.2)) = c := by
      rw [SandApp.velGetSDF]
      rw [htex]
    rw [hsdf, if_pos hc, hnorm]
  simp only [SandApp.velocityShaderApp]
  rw [if_neg (not_not_intro hw)]
  rw [show List.range SandApp.MAX_COLLISION_ITERATIONS = [0, 1, 2, 3] from rfl]
  simp only [List.foldl_cons, List.foldl_nil, Option.some_bind, Option.none_bind, hstep]

/-- Concrete uniforms for the C7 counterexample: the constant-0 SDF field
(zero gradient everywhere, and every sample satisfies
`sdf >= -SDF_THRESHOLD`) with an inside-tagged particle. -/
noncomputable def nanU : Uniforms :=
  ⟨fun _ => 0, ⟨0, 0, 0⟩, ⟨1, 1, 1⟩, 64, zeroV, fun v => v, (1024, 1024),
   fun _ => (⟨1/2, 1/2, 1/2⟩, -1), fun _ => (zeroV, 0), 0.016⟩

/-- C7 counterexample: with a constant SDF field the gradient is the zero
vector, `computeNormal` evaluates the unguarded `normalize(0)` (none),
and the whole velocity kernel produces the undefined value — collision
response is entered, not skipped, and a NaN result escapes. -/
theorem normalize_nan_counterexample :
    SandApp.computeNormal nanU ⟨1/2, 1/2, 1/2⟩ = none ∧
    SandApp.velocityShaderApp nanU (1/2, 1/2) = none := by
  have hnorm : ∀ p, SandApp.computeNormal nanU p = none := by
    intro p
    rw [SandApp.computeNormal]
    rw [normalizeV, if_pos (by simp [nanU, zeroV])]
  have hstep : ∀ st : Vec3 × Vec3, SandApp.collisionStep nanU st = none := by
    intro st
    rw [SandApp.collisionStep]
    have hsdf : SandApp.velGetSDF nanU
        (addV st.1 (smulV (nanU.delta / (SandApp.MAX_COLLISION_ITERATIONS : ℝ)) st.2)) = 0 := by
      rw [SandApp.velGetSDF]
      rfl
    rw [hsdf, if_pos (by norm_num [SandApp.SDF_THRESHOLD]), hnorm]
  refine ⟨hnorm _, ?_⟩
  simp only [SandApp.velocityShaderApp]
  rw [if_neg (not_not_intro (by norm_num [nanU] : ((nanU.texturePosition (1/2, 1/2)).2 : ℝ) < 0))]
  rw [show List.range SandApp.MAX_COLLISION_ITERATIONS = [0, 1, 2, 3] from rfl]
  simp only [List.foldl_cons, List.foldl_nil, Option.some_bind, Option.none_bind, hstep]

/-- Concrete uniforms for the C7 witness: constant SDF value 1. -/
noncomputable def nanWitnessU : Uniforms :=
  ⟨fun _ => 1, ⟨0, 0, 0⟩, ⟨1, 1, 1⟩, 64, zeroV, fun v => v, (1024, 1024),
   fun _ => (⟨1/2, 1/2, 1/2⟩, -1), fun _ => (zeroV, 0), 0.016⟩

/-- Witness for the amended C7 on the constant-1 field. -/
theorem zero_gradient_unguarded_witness :
    ((nanWitnessU.texturePosition (1/2, 1/2)).2 < 0) ∧
    (-SandApp.SDF_THRESHOLD ≤ (1 : ℝ)) ∧
    SandApp.velocityShaderApp nanWitnessU (1/2, 1/2) = none := by
  refine ⟨by norm_num [nanWitnessU], by norm_num [SandApp.SDF_THRESHOLD], ?_⟩
  exact zero_gradient_unguarded nanWitnessU (1/2, 1/2) 1
    (by norm_num [nanWitnessU]) (fun _ => rfl) (by norm_num [SandApp.SDF_THRESHOLD])

/-- C10 (amended): a particle whose stored tag is outside (`w >= 0`) gets
exactly zero velocity from the velocity kernel and is skipped as a
neighbor (`w > 0`) in the repulsion scan; the position kernel then leaves
its position unchanged, and PROVIDED the SDF sampled at that position is
nonnegative (which holds whenever the tag was produced by a previous
position-kernel commit, but not for the initial seeding, whose particles
are all tagged `w = 1` regardless of position) it re-derives the outside
tag `+1`, so by induction such a particle stays outside, stationary and
excluded forever.  Without that proviso the tag is re-derived from the
sample and an inside-positioned particle tagged outside re-enters. -/
theorem outside_particle_frozen (u : Uniforms) (uv : ℝ × ℝ)
    (hw : 0 ≤ (u.texturePosition uv).2) :
    SandApp.velocityShaderApp u uv = some (zeroV, 0) ∧
    ((u.textureVelocity uv).1 = zeroV →
      (SandApp.positionShaderApp u uv).1 = (u.texturePosition uv).1) ∧
    ((u.textureVelocity uv).1 = zeroV →
      0 ≤ SandApp.posGetSDF u (u.texturePosition uv).1 →
      SandApp.positionShaderApp u uv = ((u.texturePosition uv).1, 1)) ∧
    (∀ (pos acc : Vec3) (dx dy : ℝ),
      ¬ (dx = 0 ∧ dy = 0) →
      ¬ (uv.1 + dx / u.resolution.1 < 0 ∨ uv.2 + dy / u.resolution.2 < 0 ∨
          uv.1 + dx / u.resolution.1 > 1 ∨ uv.2 + dy / u.resolution.2 > 1) →
      0 < (u.texturePosition (uv.1 + dx / u.resolution.1, uv.2 + dy / u.resolution.2)).2 →
      SandApp.interactionBody u uv pos acc dx dy = acc) := by
  refine ⟨?_, ?_, ?_, ?_⟩
  · simp only [SandApp.velocityShaderApp]
    rw [if_pos (not_lt.mpr hw)]
  · intro hv
    simp only [SandApp.positionShaderApp]
    rw [hv, smulV_zero, addV_zero]
  · intro hv hs
    simp only [SandApp.positionShaderApp]
    rw [hv, smulV_zero, addV_zero, if_neg (not_lt.mpr hs)]
  · intro pos acc dx dy h1 h2 h3
    rw [SandApp.interactionBody]
    rw [if_neg h1, if_neg h2, if_pos h3]

/-- Concrete uniforms for the C10 counterexample: everywhere-inside
constant field (-1), a particle at the volume center whose stored tag is
outside (`w = 1`, exactly the state the initial seeding produces), zero
velocity. -/
noncomputable def frozenTagU : Uniforms :=
  ⟨fun _ => -1, ⟨0, 0, 0⟩, ⟨1, 1, 1⟩, 64, zeroV, fun v => v, (1024, 1024),
   fun _ => (⟨1/2, 1/2, 1/2⟩, 1), fun _ => (zeroV, 0), 0.016⟩

/-- C10 counterexample: the outside-tagged (`w = 1`) particle at an
inside position does get zero velocity and keeps its position, but the
position kernel re-derives the tag from the sampled SDF (-1 < 0) and
tags it INSIDE (-1), so the particle re-enters the simulation on the
next tick — it does not re-derive the same outside tag. -/
theorem outside_tag_counterexample :
    (0 : ℝ) ≤ (frozenTagU.texturePosition (1/2, 1/2)).2 ∧
    SandApp.velocityShaderApp frozenTagU (1/2, 1/2) = some (zeroV, 0) ∧
    SandApp.positionShaderApp frozenTagU (1/2, 1/2) = (⟨1/2, 1/2, 1/2⟩, -1) := by
  refine ⟨by norm_num [frozenTagU], ?_, ?_⟩
  · simp only [SandApp.velocityShaderApp]
    rw [if_pos (not_lt.mpr (by norm_num [frozenTagU] :
      (0 : ℝ) ≤ (frozenTagU.texturePosition (1/2, 1/2)).2))]
  · have hin : SandApp.posGetSDF frozenTagU ⟨1/2, 1/2, 1/2⟩ = -1 := by
      rw [SandApp.posGetSDF]
      simp only [frozenTagU, sdfUV, divV, subV]
      norm_num
    have hnew : addV (frozenTagU.texturePosition (1/2, 1/2)).1
        (smulV frozenTagU.delta (frozenTagU.textureVelocity (1/2, 1/2)).1) =
        ⟨1/2, 1/2, 1/2⟩ := by
      show addV ⟨1/2, 1/2, 1/2⟩ (smulV frozenTagU.delta zeroV) = ⟨1/2, 1/2, 1/2⟩
      rw [smulV_zero, addV_zero]
    simp only [SandApp.positionShaderApp]
    rw [hnew, hin, if_pos (by norm_num : (-1 : ℝ) < 0)]

/-- Concrete uniforms for the C10 witness: constant outside field (+5),
outside-tagged stationary particle. -/
noncomputable def outsideU : Uniforms :=
  ⟨fun _ => 5, ⟨0, 0, 0⟩, ⟨1, 1, 1⟩, 64, zeroV, fun v => v, (1024, 1024),
   fun _ => (⟨1/2, 1/2, 1/2⟩, 1), fun _ => (zeroV, 0), 0.016⟩

/-- Witness for the amended C10: with a nonnegative sample at the stored
position, the outside particle is frozen with tag +1 re-derived. -/
theorem outside_particle_frozen_witness :
    (0 : ℝ) ≤ (outsideU.texturePosition (1/2, 1/2)).2 ∧
    (outsideU.textureVelocity (1/2, 1/2)).1 = zeroV ∧
    0 ≤ SandApp.posGetSDF outsideU (outsideU.texturePosition (1/2, 1/2)).1 ∧
    SandApp.velocityShaderApp outsideU (1/2, 1/2) = some (zeroV, 0) ∧
    SandApp.positionShaderApp outsideU (1/2, 1/2) =
      ((outsideU.texturePosition (1/2, 1/2)).1, 1) := by
  have hs : 0 ≤ SandApp.posGetSDF outsideU (outsideU.texturePosition (1/2, 1/2)).1 := by
    show 0 ≤ SandApp.posGetSDF outsideU ⟨1/2, 1/2, 1/2⟩
    rw [SandApp.posGetSDF]
    simp only [outsideU, sdfUV, divV, subV]
    norm_num
  have hw : (0 : ℝ) ≤ (outsideU.texturePosition (1/2, 1/2)).2 := by norm_num [outsideU]
  refine ⟨hw, rfl, hs, ?_, ?_⟩
  · exact (outside_particle_frozen outsideU (1/2, 1/2) hw).1
  · exact (outside_particle_frozen outsideU (1/2, 1/2) hw).2.2.1 rfl hs

theorem smulV_smulV (a b : ℝ) (v : Vec3) : smulV a (smulV b v) = smulV (a * b) v := by
  simp only [smulV, Vec3.mk.injEq]
  refine ⟨by ring, by ring, by ring⟩

/-- C9: for a scanned neighbor at distance `0 < d < r` (with
`r = PARTICLE_RADIUS * 4` the repulsion radius of the part_002 7x7 index
window scan), the force added for that neighbor splits into a repulsion
part `c • (pos - npos)` with `c > 0` — directed along the separation
vector away from the neighbor — of magnitude exactly
`(1 - d/r)^2 * REPULSION_STRENGTH`, minus the velocity-difference damping
term `((1 - d/r)^2 * 0.1) • (vel - nvel)`. -/
theorem repulsion_force_shape (pos vel npos nvel : Vec3) (nw nw2 : ℝ)
    (hlt : lenV (subV pos npos) < SandP2.PARTICLE_RADIUS * 4)
    (hgt : lenV (subV pos npos) > 0) :
    SandP2.interactionTerm pos vel (npos, nw) (nvel, nw2) =
      subV
        (smulV ((1 - lenV (subV pos npos) / (SandP2.PARTICLE_RADIUS * 4)) ^ 2 *
            SandP2.REPULSION_STRENGTH / lenV (subV pos npos)) (subV pos npos))
        (smulV ((1 - lenV (subV pos npos) / (SandP2.PARTICLE_RADIUS * 4)) ^ 2 * 0.1)
          (subV vel nvel)) ∧
    0 < (1 - lenV (subV pos npos) / (SandP2.PARTICLE_RADIUS * 4)) ^ 2 *
        SandP2.REPULSION_STRENGTH / lenV (subV pos npos) ∧
    lenV (smulV ((1 - lenV (subV pos npos) / (SandP2.PARTICLE_RADIUS * 4)) ^ 2 *
        SandP2.REPULSION_STRENGTH / lenV (subV pos npos)) (subV pos npos)) =
      (1 - lenV (subV pos npos) / (SandP2.PARTICLE_RADIUS * 4)) ^ 2 *
        SandP2.REPULSION_STRENGTH := by
  have hr : (0 : ℝ) < SandP2.PARTICLE_RADIUS * 4 := by norm_num [SandP2.PARTICLE_RADIUS]
  have hinf : 0 < 1 - lenV (subV pos npos) / (SandP2.PARTICLE_RADIUS * 4) := by
    have hdiv : lenV (subV pos npos) / (SandP2.PARTICLE_RADIUS * 4) < 1 :=
      (div_lt_one hr).mpr hlt
    linarith
  have hcoef : 0 < (1 - lenV (subV pos npos) / (SandP2.PARTICLE_RADIUS * 4)) ^ 2 *
      SandP2.REPULSION_STRENGTH / lenV (subV pos npos) := by
    apply div_pos
    · exact mul_pos (pow_pos hinf 2) (by norm_num [SandP2.REPULSION_STRENGTH])
    · exact hgt
  refine ⟨?_, hcoef, ?_⟩
  · simp only [SandP2.interactionTerm]
    rw [if_pos ⟨hlt, hgt⟩]
    simp only [smulV, subV, Vec3.mk.injEq]
    refine ⟨by ring, by ring, by ring⟩
  · rw [lenV_smul, abs_of_pos hcoef]
    field_simp
    ring

/-- Witness for C9 on a neighbor pair at distance 0.05 along the x axis. -/
theorem repulsion_force_shape_witness :
    lenV (subV (⟨1/20, 0, 0⟩ : Vec3) ⟨0, 0, 0⟩) < SandP2.PARTICLE_RADIUS * 4 ∧
    lenV (subV (⟨1/20, 0, 0⟩ : Vec3) ⟨0, 0, 0⟩) > 0 ∧
    lenV (smulV ((1 - lenV (subV (⟨1/20, 0, 0⟩ : Vec3) ⟨0, 0, 0⟩) /
        (SandP2.PARTICLE_RADIUS * 4)) ^ 2 *
        SandP2.REPULSION_STRENGTH / lenV (subV (⟨1/20, 0, 0⟩ : Vec3) ⟨0, 0, 0⟩))
        (subV (⟨1/20, 0, 0⟩ : Vec3) ⟨0, 0, 0⟩)) =
      (1 - lenV (subV (⟨1/20, 0, 0⟩ : Vec3) ⟨0, 0, 0⟩) /
        (SandP2.PARTICLE_RADIUS * 4)) ^ 2 * SandP2.REPULSION_STRENGTH := by
  have hdot : dotV (subV (⟨1/20, 0, 0⟩ : Vec3) ⟨0, 0, 0⟩)
      (subV (⟨1/20, 0, 0⟩ : Vec3) ⟨0, 0, 0⟩) = (1/400 : ℝ) := by
    simp [subV, dotV]
    norm_num
  have hlen : lenV (subV (⟨1/20, 0, 0⟩ : Vec3) ⟨0, 0, 0⟩) = 1/20 := by
    rw [lenV, hdot, show (1/400 : ℝ) = (1/20) ^ 2 by norm_num,
      Real.sqrt_sq (by norm_num : (0 : ℝ) ≤ 1/20)]
  have hlt : lenV (subV (⟨1/20, 0, 0⟩ : Vec3) ⟨0, 0, 0⟩) < SandP2.PARTICLE_RADIUS * 4 := by
    rw [hlen]
    norm_num [SandP2.PARTICLE_RADIUS]
  have hgt : lenV (subV (⟨1/20, 0, 0⟩ : Vec3) ⟨0, 0, 0⟩) > 0 := by
    rw [hlen]
    norm_num
  exact ⟨hlt, hgt,
    (repulsion_force_shape ⟨1/20, 0, 0⟩ zeroV ⟨0, 0, 0⟩ zeroV 1 0 hlt hgt).2.2⟩
